import Mathlib

/-!
Shallow embedding of the response-validation, record-normalization and
lookup layer of `confluence/confluence.py`.

Raw JSON payloads are modelled by the `JVal` inductive; Python's runtime
errors (AttributeError, KeyError, IndexError, TypeError, ValueError) are
modelled by `Except PyErr`.  Each public method of the `Confluence` class
that the claims mention is translated line by line; HTTP traffic is
modelled by a pure transport `String → HttpResponse` mapping a request
URL to the response the server would give, and every method additionally
returns the list of URLs it fetched, in order, so that fetch counts are
observable.
-/

namespace Confluence

/-- JSON-like values as decoded by `response.json()`.  Floats never occur
in the payload shapes this client touches and are omitted. -/
inductive JVal where
  | null
  | bool (b : Bool)
  | int (n : Int)
  | str (s : String)
  | list (xs : List JVal)
  | obj (fields : List (String × JVal))

/-- The Python runtime errors that can escape the translated code. -/
inductive PyErr where
  | attributeError
  | keyError
  | indexError
  | typeError
  | valueError
deriving DecidableEq

/-- First-match lookup in a JSON object's field list (Python dicts hold
each key once, so first-match agrees with dict lookup). -/
def lookupField : List (String × JVal) → String → Option JVal
  | [], _ => none
  | (k, v) :: rest, key => if k = key then some v else lookupField rest key

/-- Key assignment `d[k] = v` on a JSON object's field list: overwrite in
place if the key exists, append otherwise (Python dict update order). -/
def setKey : List (String × JVal) → String → JVal → List (String × JVal)
  | [], k, v => [(k, v)]
  | (k0, v0) :: rest, k, v =>
    if k0 = k then (k, v) :: rest else (k0, v0) :: setKey rest k v

/-- Python subscript `d[k]` with a string key: KeyError when the key is
absent, TypeError when the value is not a dict. -/
def JVal.getItem : JVal → String → Except PyErr JVal
  | JVal.obj fs, k =>
    match lookupField fs k with
    | some v => Except.ok v
    | none => Except.error PyErr.keyError
  | _, _ => Except.error PyErr.typeError

/-- Python `d.get(k)`: on a dict, the value or None; on anything else
(including None itself) the attribute does not exist, AttributeError.
This is the crux of the `.get(...).get(...)` chains in `get_page`. -/
def JVal.get : JVal → String → Except PyErr JVal
  | JVal.obj fs, k => Except.ok ((lookupField fs k).getD JVal.null)
  | _, _ => Except.error PyErr.attributeError

/-- Nth element of a list, by structural recursion. -/
def listNth {α : Type} : List α → Nat → Option α
  | [], _ => none
  | x :: _, 0 => some x
  | _ :: xs, Nat.succ i => listNth xs i

/-- Python subscript `xs[i]` with a non-negative index: IndexError past
the end, TypeError on a non-sequence.  The source only ever indexes the
`results` lists of decoded payloads. -/
def JVal.index : JVal → Nat → Except PyErr JVal
  | JVal.list xs, i =>
    match listNth xs i with
    | some v => Except.ok v
    | none => Except.error PyErr.indexError
  | _, _ => Except.error PyErr.typeError

/-- Python `len(v)`: defined on sequences, dicts and strings, TypeError
otherwise (e.g. `len(None)`). -/
def JVal.len : JVal → Except PyErr Nat
  | JVal.list xs => Except.ok xs.length
  | JVal.obj fs => Except.ok fs.length
  | JVal.str s => Except.ok s.length
  | _ => Except.error PyErr.typeError

/-- Python `str(v)` on the scalar values the source applies it to
(version numbers, which arrive as integers or strings).  The source never
calls `str` on a composite payload, so their rendering is left as an
opaque-looking marker rather than a full repr. -/
def pyStr : JVal → String
  | JVal.null => "None"
  | JVal.bool true => "True"
  | JVal.bool false => "False"
  | JVal.int n => toString n
  | JVal.str s => s
  | JVal.list _ => "<list>"
  | JVal.obj _ => "<dict>"

/-- Python `a + b` as used on payload fields: string concatenation when
both sides are strings, integer addition on integers, TypeError on any
mix (e.g. `str + None`, which the URL-building lines can hit). -/
def pyAdd : JVal → JVal → Except PyErr JVal
  | JVal.str a, JVal.str b => Except.ok (JVal.str (a ++ b))
  | JVal.int a, JVal.int b => Except.ok (JVal.int (a + b))
  | _, _ => Except.error PyErr.typeError

/-- Accumulate a non-empty all-digit character run into a number; any
non-digit fails the parse. -/
def parseDigits : List Char → Nat → Option Nat
  | [], acc => some acc
  | c :: cs, acc =>
    if c.isDigit then parseDigits cs (acc * 10 + (c.toNat - 48)) else none

/-- Python `int(s)` on a string: an optional sign followed by decimal
digits (whitespace trimming and non-decimal literal forms never occur in
the ids this is applied to and are not modelled). -/
def pyIntOfString (s : String) : Option Int :=
  match s.data with
  | [] => none
  | '-' :: c :: cs => (parseDigits (c :: cs) 0).map (fun n => -(n : Int))
  | '+' :: c :: cs => (parseDigits (c :: cs) 0).map (fun n => (n : Int))
  | cs => (parseDigits cs 0).map (fun n => (n : Int))

/-- Python `int(v)`: identity on ints, parse on decimal strings
(ValueError on a non-numeric string), 0/1 on bools, TypeError on
None and composites. -/
def pyInt : JVal → Except PyErr Int
  | JVal.int n => Except.ok n
  | JVal.bool b => Except.ok (if b then 1 else 0)
  | JVal.str s =>
    match pyIntOfString s with
    | some n => Except.ok n
    | none => Except.error PyErr.valueError
  | _ => Except.error PyErr.typeError

/-- Python truthiness of an optional integer argument, as tested by
`if limit:` — None and 0 are falsy. -/
def truthyInt : Option Int → Bool
  | none => false
  | some n => decide (n ≠ 0)

/-- The `&limit=...` query-string suffix appended when a limit is given. -/
def limitSuffix : Option Int → String
  | some l => "&limit=" ++ toString l
  | none => ""

/-- A decoded HTTP response as the `requests` library hands it back:
the success flag, the status reason, and the decoded JSON body.  The
claims all concern well-formed (decodable) bodies, so `json` is carried
directly rather than behind a decode step. -/
structure HttpResponse where
  ok : Bool
  reason : String
  json : JVal

/-- The REST base, `self.rest_url = self.base_url + '/rest/api/'`. -/
def rest_url (base : String) : String := base ++ "/rest/api/"

/-- Confluence.check_response: returns False for a None argument, returns
the (false) success flag for a not-ok response, probes
`response.json()['results'][0]` catching only IndexError (empty list →
False); a missing `results` key raises KeyError uncaught, and the
discarded `len(...)` can raise TypeError uncaught.  Returns True
otherwise. -/
def check_response (response : Option HttpResponse) : Except PyErr Bool :=
  match response with
  | none => Except.ok false
  | some r =>
    if r.ok = false then Except.ok false
    else
      match JVal.getItem r.json ("results") with
      | Except.error e => Except.error e
      | Except.ok results =>
        match JVal.index results 0 with
        | Except.error PyErr.indexError => Except.ok false
        | Except.error e => Except.error e
        | Except.ok first =>
          match JVal.len first with
          | Except.error e => Except.error e
          | Except.ok _ => Except.ok true

/-- The cleaned page record built by `get_page` (the `clean_results`
dict), fields in source order. -/
structure CleanPage where
  content : JVal
  status : JVal
  created : JVal
  creator : JVal
  current : JVal
  id : JVal
  modified : JVal
  modifier : JVal
  space : String
  title : JVal
  url : JVal
  version : JVal

/-- Possible returns of `get_page`: Python None, the full JSON payload,
or the cleaned record. -/
inductive GetPageResult where
  | nonePage
  | full (v : JVal)
  | pretty (p : CleanPage)

/-- The request URL `get_page` builds (note the literal `?&` of the
source's format string). -/
def get_page_request (base space page : String) : String :=
  rest_url base ++ "content?&spaceKey=" ++ space ++ "&title=" ++ page ++
    "&expand=body.storage,version,history"

/-- Confluence.get_page: one fetch; returns None when the response is not
ok (it does NOT call check_response); returns the raw payload when
`full`; otherwise reads `_links.base` and `results[0]` with subscripts
and builds the cleaned dict with `.get` chains, evaluated in source
order.  The version number passes through Python `str(...)`. -/
def get_page (conn : String → HttpResponse) (base space page : String)
    (full : Bool) : List String × Except PyErr GetPageResult :=
  let url := get_page_request base space page
  let response := conn url
  ([url],
    if response.ok = false then Except.ok GetPageResult.nonePage
    else if full then Except.ok (GetPageResult.full response.json)
    else do
      let links ← JVal.getItem response.json ("_links")
      let base_url ← JVal.getItem links ("base")
      let results ← JVal.getItem response.json ("results")
      let r ← JVal.index results 0
      let body ← JVal.get r ("body")
      let storage ← JVal.get body ("storage")
      let content ← JVal.get storage ("value")
      let status ← JVal.get r ("status")
      let history1 ← JVal.get r ("history")
      let created ← JVal.get history1 ("createdDate")
      let history2 ← JVal.get r ("history")
      let createdBy ← JVal.get history2 ("createdBy")
      let creator ← JVal.get createdBy ("username")
      let history3 ← JVal.get r ("history")
      let current ← JVal.get history3 ("latest")
      let idv ← JVal.get r ("id")
      let version1 ← JVal.get r ("version")
      let modified ← JVal.get version1 ("when")
      let version2 ← JVal.get r ("version")
      let byUser ← JVal.get version2 ("by")
      let modifier ← JVal.get byUser ("username")
      let title ← JVal.get r ("title")
      let links2 ← JVal.get r ("_links")
      let webui ← JVal.get links2 ("webui")
      let url2 ← pyAdd base_url webui
      let version3 ← JVal.get r ("version")
      let vnum ← JVal.get version3 ("number")
      Except.ok (GetPageResult.pretty
        { content := content, status := status, created := created,
          creator := creator, current := current, id := idv,
          modified := modified, modifier := modifier, space := space,
          title := title, url := url2, version := JVal.str (pyStr vnum) }))

/-- The deprecation warning text emitted by the
`deprecate_xmlrpc_notification` decorator for a given method name. -/
def deprecationMessage (name : String) : String :=
  name ++ " will be rewritten to use the Atlassian REST API in future versions.\nThis change will introduce changes in the module method responses."

/-- A value together with the warnings emitted while computing it. -/
structure Warned (α : Type) where
  warnings : List String
  value : α

/-- The `deprecate_xmlrpc_notification` decorator: emit one
PendingDeprecationWarning naming the wrapped function, then call it
unchanged. -/
def deprecate_xmlrpc_notification {α : Type} (name : String)
    (f : Unit → α) : Warned α :=
  { warnings := [deprecationMessage name], value := f () }

/-- Confluence.getPage, the deprecated wrapper: warns, then returns
`self.get_page(space, page)` with the argument order swapped and the
defaults `full=False`. -/
def getPage (conn : String → HttpResponse) (base page space : String) :
    Warned (List String × Except PyErr GetPageResult) :=
  deprecate_xmlrpc_notification ("getPage")
    (fun _ => get_page conn base space page false)

/-- One cleaned entry of the `get_pages` list comprehension, fields in
source order. -/
structure CleanEntry where
  id : JVal
  space : String
  title : JVal
  url : JVal
  version : JVal

/-- Possible returns of `get_pages`. -/
inductive GetPagesResult where
  | nonePages
  | full (v : JVal)
  | pretty (rs : List CleanEntry)

/-- The request URL `get_pages` builds. -/
def get_pages_request (base space : String) (limit : Option Int) : String :=
  let r := rest_url base ++ "content?spaceKey=" ++ space ++ "&expand=version"
  if truthyInt limit then r ++ limitSuffix limit else r

/-- One entry of the `get_pages` comprehension: subscript access
throughout, `str(entry['version']['number'])` for the version. -/
def pages_entry (base_url : JVal) (space : String) (entry : JVal) :
    Except PyErr CleanEntry := do
  let idv ← JVal.getItem entry ("id")
  let title ← JVal.getItem entry ("title")
  let links ← JVal.getItem entry ("_links")
  let webui ← JVal.getItem links ("webui")
  let url ← pyAdd base_url webui
  let version ← JVal.getItem entry ("version")
  let vnum ← JVal.getItem version ("number")
  Except.ok { id := idv, space := space, title := title, url := url,
              version := JVal.str (pyStr vnum) }

/-- Confluence.get_pages: one fetch, gated by check_response (whose
KeyError/TypeError propagate); None on a failed check; the raw payload
when `full`; otherwise maps the comprehension over `results`. -/
def get_pages (conn : String → HttpResponse) (base space : String)
    (limit : Option Int) (full : Bool) :
    List String × Except PyErr GetPagesResult :=
  let url := get_pages_request base space limit
  let response := conn url
  ([url],
    match check_response (some response) with
    | Except.error e => Except.error e
    | Except.ok false => Except.ok GetPagesResult.nonePages
    | Except.ok true =>
      if full then Except.ok (GetPagesResult.full response.json)
      else do
        let links ← JVal.getItem response.json ("_links")
        let base_url ← JVal.getItem links ("base")
        let results ← JVal.getItem response.json ("results")
        match results with
        | JVal.list xs => do
            let rs ← xs.mapM (pages_entry base_url space)
            Except.ok (GetPagesResult.pretty rs)
        | _ => Except.error PyErr.typeError)

/-- One cleaned entry of the `get_spaces` list comprehension. -/
structure CleanSpace where
  key : JVal
  name : JVal
  type : JVal
  url : JVal

/-- Possible returns of `get_spaces`. -/
inductive GetSpacesResult where
  | noneSpaces
  | full (v : JVal)
  | pretty (rs : List CleanSpace)

/-- The request URL `get_spaces` builds (the source appends `&limit=`
with no `?`, reproduced faithfully). -/
def get_spaces_request (base : String) (limit : Option Int) : String :=
  let r := rest_url base ++ "space"
  if truthyInt limit then r ++ limitSuffix limit else r

/-- One entry of the `get_spaces` comprehension, in source order (the
`url` field reads `entry['key']` a second time). -/
def spaces_entry (base_url : JVal) (entry : JVal) :
    Except PyErr CleanSpace := do
  let key ← JVal.getItem entry ("key")
  let name ← JVal.getItem entry ("name")
  let ty ← JVal.getItem entry ("type")
  let key2 ← JVal.getItem entry ("key")
  let url ← pyAdd base_url key2
  Except.ok { key := key, name := name, type := ty, url := url }

/-- Confluence.get_spaces: one fetch, gated by check_response; None on a
failed check; the raw payload when `full`; otherwise maps the
comprehension over `results` with base
`response['_links']['base'] + '/display/'`. -/
def get_spaces (conn : String → HttpResponse) (base : String)
    (limit : Option Int) (full : Bool) :
    List String × Except PyErr GetSpacesResult :=
  let url := get_spaces_request base limit
  let response := conn url
  ([url],
    match check_response (some response) with
    | Except.error e => Except.error e
    | Except.ok false => Except.ok GetSpacesResult.noneSpaces
    | Except.ok true =>
      if full then Except.ok (GetSpacesResult.full response.json)
      else do
        let links ← JVal.getItem response.json ("_links")
        let base0 ← JVal.getItem links ("base")
        let base_url ← pyAdd base0 (JVal.str ("/display/"))
        let results ← JVal.getItem response.json ("results")
        match results with
        | JVal.list xs => do
            let rs ← xs.mapM (spaces_entry base_url)
            Except.ok (GetSpacesResult.pretty rs)
        | _ => Except.error PyErr.typeError)

/-- Possible returns of `get_page_id`: Python None or the coerced id. -/
inductive GetPageIdResult where
  | noneId
  | intId (n : Int)

/-- The request URL `get_page_id` builds; the optional content type is
lower-cased before being appended. -/
def get_page_id_request (base space page : String)
    (content_type : Option String) : String :=
  let r := rest_url base ++ "content?spaceKey=" ++ space ++ "&title=" ++ page
  match content_type with
  | some t => r ++ "&type=" ++ t.toLower
  | none => r

/-- Confluence.get_page_id: one fetch, gated by check_response; None on a
failed check, otherwise `int(response.json()['results'][0]['id'])`. -/
def get_page_id (conn : String → HttpResponse) (base space page : String)
    (content_type : Option String) :
    List String × Except PyErr GetPageIdResult :=
  let url := get_page_id_request base space page content_type
  let response := conn url
  ([url],
    match check_response (some response) with
    | Except.error e => Except.error e
    | Except.ok false => Except.ok GetPageIdResult.noneId
    | Except.ok true =>
      match JVal.getItem response.json ("results") with
      | Except.error e => Except.error e
      | Except.ok results =>
        match JVal.index results 0 with
        | Except.error e => Except.error e
        | Except.ok first =>
          match JVal.getItem first ("id") with
          | Except.error e => Except.error e
          | Except.ok idv =>
            match pyInt idv with
            | Except.error e => Except.error e
            | Except.ok n => Except.ok (GetPageIdResult.intId n))

/-- The request URL `get_child_pages` builds with its hard-coded
`start=0`, `limit=25`. -/
def get_child_pages_request (base root_page_id : String) : String :=
  rest_url base ++ "content/" ++ root_page_id ++ "/child/page?start=0&limit=25"

/-- Confluence.get_child_pages: one fetch (no ok check before `.json()`),
then a loop that mutates ONE shared dict `out` — setting its `title` and
`id` keys from each child in turn — and finally returns `out` itself,
not the accumulated list. -/
def get_child_pages (conn : String → HttpResponse)
    (base root_page_id : String) : List String × Except PyErr JVal :=
  let url := get_child_pages_request base root_page_id
  let response := conn url
  ([url], do
    let results ← JVal.getItem response.json ("results")
    match results with
    | JVal.list xs => do
        let out ← xs.foldlM
          (fun out item => do
            let t ← JVal.get item ("title")
            let idv ← JVal.get item ("id")
            Except.ok (setKey (setKey out ("title") t) ("id") idv))
          ([] : List (String × JVal))
        Except.ok (JVal.obj out)
    | _ => Except.error PyErr.typeError)

/-! ## Concrete fixtures (fake server responses and transports) -/

/-- A not-ok response, as after an HTTP 500. -/
def failedResponse : HttpResponse :=
  { ok := false, reason := "Internal Server Error", json := JVal.null }

/-- A successful list-shaped response whose `results` list is empty. -/
def emptyListResponse : HttpResponse :=
  { ok := true, reason := "OK",
    json := JVal.obj [("results", JVal.list [])] }

/-- A successful single-entity-shaped response: no top-level `results`
key, the entity's own fields at top level. -/
def singleShapeResponse : HttpResponse :=
  { ok := true, reason := "OK",
    json := JVal.obj [
      ("id", JVal.str ("12345")),
      ("type", JVal.str ("page")),
      ("title", JVal.str ("Welcome")),
      ("_links", JVal.obj [("base", JVal.str ("http://wiki"))]) ] }

/-- A fully populated raw content entry whose version number is the
given value. -/
def pageEntry (vnum : JVal) : JVal :=
  JVal.obj [
    ("id", JVal.str ("12345")),
    ("status", JVal.str ("current")),
    ("title", JVal.str ("Welcome")),
    ("body", JVal.obj [("storage", JVal.obj [("value", JVal.str ("<p>hi</p>"))])]),
    ("history", JVal.obj [
      ("createdDate", JVal.str ("2020-01-01")),
      ("createdBy", JVal.obj [("username", JVal.str ("alice"))]),
      ("latest", JVal.bool true)]),
    ("version", JVal.obj [
      ("when", JVal.str ("2020-02-02")),
      ("by", JVal.obj [("username", JVal.str ("bob"))]),
      ("number", vnum)]),
    ("_links", JVal.obj [("webui", JVal.str ("/x"))]) ]

/-- A successful list-shaped response wrapping one content entry. -/
def pageResponse (entry : JVal) : HttpResponse :=
  { ok := true, reason := "OK",
    json := JVal.obj [
      ("_links", JVal.obj [("base", JVal.str ("http://wiki"))]),
      ("results", JVal.list [entry]) ] }

/-- An object holding the given key only when a value is supplied, so
that leaf-field absence is genuine key absence. -/
def leafObj (key : String) : Option JVal → JVal
  | some x => JVal.obj [(key, x)]
  | none => JVal.obj []

/-- Python None for an absent optional field. -/
def optToNull : Option JVal → JVal
  | some v => v
  | none => JVal.null

/-- A raw content entry whose optional leaves — `body.storage.value`,
`history.createdBy.username`, `version.by.username` — are each present
or absent according to the given options; all intermediate objects are
present. -/
def pageEntryLeaves (content creator modifier : Option JVal) : JVal :=
  JVal.obj [
    ("id", JVal.str ("12345")),
    ("status", JVal.str ("current")),
    ("title", JVal.str ("Welcome")),
    ("body", JVal.obj [("storage", leafObj ("value") content)]),
    ("history", JVal.obj [
      ("createdDate", JVal.str ("2020-01-01")),
      ("createdBy", leafObj ("username") creator),
      ("latest", JVal.bool true)]),
    ("version", JVal.obj [
      ("when", JVal.str ("2020-02-02")),
      ("by", leafObj ("username") modifier),
      ("number", JVal.int 3)]),
    ("_links", JVal.obj [("webui", JVal.str ("/x"))]) ]

/-- A well-formed raw content entry with no `body` field at all (as a
metadata-only query returns). -/
def pageEntryNoBody : JVal :=
  JVal.obj [
    ("id", JVal.str ("12345")),
    ("status", JVal.str ("current")),
    ("title", JVal.str ("Welcome")),
    ("history", JVal.obj [
      ("createdDate", JVal.str ("2020-01-01")),
      ("createdBy", JVal.obj [("username", JVal.str ("alice"))]),
      ("latest", JVal.bool true)]),
    ("version", JVal.obj [
      ("when", JVal.str ("2020-02-02")),
      ("by", JVal.obj [("username", JVal.str ("bob"))]),
      ("number", JVal.int 3)]),
    ("_links", JVal.obj [("webui", JVal.str ("/x"))]) ]

/-- A successful response with an empty `results` list and the `_links`
block present: the well-formed answer to a lookup that matched
nothing. -/
def emptyResultsResponse : HttpResponse :=
  { ok := true, reason := "OK",
    json := JVal.obj [
      ("_links", JVal.obj [("base", JVal.str ("http://wiki"))]),
      ("results", JVal.list []) ] }

/-- A raw entry of the shape `get_pages` consumes, with the given
version number. -/
def pagesEntryRaw (vnum : JVal) : JVal :=
  JVal.obj [
    ("id", JVal.str ("12345")),
    ("title", JVal.str ("Welcome")),
    ("_links", JVal.obj [("webui", JVal.str ("/x"))]),
    ("version", JVal.obj [("number", vnum)]) ]

/-- A successful list-shaped response for `get_pages` with one entry. -/
def pagesResponse (vnum : JVal) : HttpResponse :=
  { ok := true, reason := "OK",
    json := JVal.obj [
      ("_links", JVal.obj [("base", JVal.str ("http://wiki"))]),
      ("results", JVal.list [pagesEntryRaw vnum]) ] }

/-- The i-th of the fake server's 60 spaces. -/
def spaceEntry (i : Nat) : JVal :=
  JVal.obj [
    ("key", JVal.str ("SP" ++ toString i)),
    ("name", JVal.str ("Space " ++ toString i)),
    ("type", JVal.str ("global")) ]

/-- A page of the fake space collection: `count` entries starting at
offset `start`. -/
def spacePage (start count : Nat) : HttpResponse :=
  { ok := true, reason := "OK",
    json := JVal.obj [
      ("_links", JVal.obj [("base", JVal.str ("http://wiki"))]),
      ("results", JVal.list ((List.range count).map (fun i => spaceEntry (start + i)))) ] }

/-- A fake paged source holding 60 spaces in pages of sizes 25, 25 and
10 for page size 25, keyed by a `start` offset in the request URL; a
request naming no offset is served the page at offset 0.  `get_spaces`
never sends a `start` parameter, so every request it makes lands on the
first page. -/
def fakePagedConn (url : String) : HttpResponse :=
  if url = rest_url ("http://wiki") ++ "space?start=50&limit=25" then spacePage 50 10
  else if url = rest_url ("http://wiki") ++ "space?start=25&limit=25" then spacePage 25 25
  else spacePage 0 25

/-- The `get_spaces` walk over the fake paged source, no caller limit. -/
def c1run : List String × Except PyErr GetSpacesResult :=
  get_spaces fakePagedConn ("http://wiki") none false

/-- Number of cleaned entries when `get_spaces` returned the pretty
list, `none` otherwise. -/
def prettySpacesLength : Except PyErr GetSpacesResult → Option Nat
  | Except.ok (GetSpacesResult.pretty rs) => some rs.length
  | _ => none

/-- The `version` field of a pretty `get_page` result, `none` on any
other outcome. -/
def pageVersionOf : Except PyErr GetPageResult → Option JVal
  | Except.ok (GetPageResult.pretty p) => some p.version
  | _ => none

/-- The `version` fields of a pretty `get_pages` result, `none` on any
other outcome. -/
def pagesVersions : Except PyErr GetPagesResult → Option (List JVal)
  | Except.ok (GetPagesResult.pretty rs) => some (rs.map (fun e => e.version))
  | _ => none

/-- A child-page listing response with two children. -/
def childResponse : HttpResponse :=
  { ok := true, reason := "OK",
    json := JVal.obj [
      ("results", JVal.list [
        JVal.obj [("id", JVal.str ("1")), ("title", JVal.str ("Alpha"))],
        JVal.obj [("id", JVal.str ("2")), ("title", JVal.str ("Bravo"))] ]),
      ("size", JVal.int 2) ] }

/-! ## Claim theorems -/

/-- Claim C1, counterexample: against the fake paged source holding 60
spaces in pages of 25/25/10, `get_spaces` performs exactly 1 fetch (not
3) and returns only the 25 entries of the first page (not 60): the
claimed pagination walk does not happen. -/
theorem c1_no_pagination_counterexample :
    c1run.1.length = 1 ∧ prettySpacesLength c1run.2 = some 25 ∧
      ¬(c1run.1.length = 3 ∧ prettySpacesLength c1run.2 = some 60) := by
  refine ⟨rfl, rfl, ?_⟩
  intro h
  exact absurd ((rfl : c1run.1.length = 1).symm.trans h.1) (by decide)

/-- Claim C1, amended: `get_spaces` (and likewise `get_pages`) issues
exactly one fetch per call, at a URL carrying no offset parameter; there
is no pagination loop and no completeness flag, and against the 25/25/10
fake source the call returns just the 25 first-page entries. -/
theorem c1_single_fetch :
    (∀ (conn : String → HttpResponse) (base : String) (limit : Option Int)
        (full : Bool),
      (get_spaces conn base limit full).1 = [get_spaces_request base limit]) ∧
    (∀ (conn : String → HttpResponse) (base space : String)
        (limit : Option Int) (full : Bool),
      (get_pages conn base space limit full).1 = [get_pages_request base space limit]) ∧
    c1run.1 = [get_spaces_request ("http://wiki") none] ∧
    prettySpacesLength c1run.2 = some 25 :=
  ⟨fun _ _ _ _ => rfl, fun _ _ _ _ _ => rfl, rfl, rfl⟩

/-- Claim C2, counterexample: a server-supplied integer version 3 comes
out of `get_page` normalization as the string "3", not the integer 3 —
the code applies `str(...)`, not integer coercion. -/
theorem c2_version_counterexample :
    pageVersionOf ((get_page (fun _ => pageResponse (pageEntry (JVal.int 3)))
        ("http://wiki") ("DS") ("Welcome") false).2) = some (JVal.str ("3")) ∧
    JVal.str ("3") ≠ JVal.int 3 :=
  ⟨rfl, fun h => JVal.noConfusion h⟩

/-- Claim C2, amended: the normalized `version` field is the DECIMAL
STRING of the server-supplied number — integer input n yields the string
of n, string input s yields s — for both `get_page` and `get_pages`
normalization. -/
theorem c2_version_stringified :
    (∀ n : Int,
      pageVersionOf ((get_page (fun _ => pageResponse (pageEntry (JVal.int n)))
          ("http://wiki") ("DS") ("Welcome") false).2) =
        some (JVal.str (toString n))) ∧
    (∀ s : String,
      pageVersionOf ((get_page (fun _ => pageResponse (pageEntry (JVal.str s)))
          ("http://wiki") ("DS") ("Welcome") false).2) = some (JVal.str s)) ∧
    (∀ n : Int,
      pagesVersions ((get_pages (fun _ => pagesResponse (JVal.int n))
          ("http://wiki") ("DS") none false).2) =
        some [JVal.str (toString n)]) ∧
    (∀ s : String,
      pagesVersions ((get_pages (fun _ => pagesResponse (JVal.str s))
          ("http://wiki") ("DS") none false).2) = some [JVal.str s]) :=
  ⟨fun _ => rfl, fun _ => rfl, fun _ => rfl, fun _ => rfl⟩

/-- Claim C3, counterexample: on a well-formed entry with no `body`
field, `get_page` normalization raises AttributeError
(`None.get('storage')`) instead of yielding a record with `body = None`. -/
theorem c3_missing_body_counterexample :
    (get_page (fun _ => pageResponse pageEntryNoBody) ("http://wiki") ("DS")
        ("Welcome") false).2 = Except.error PyErr.attributeError ∧
    (Except.error PyErr.attributeError : Except PyErr GetPageResult) ≠
      Except.ok (GetPageResult.pretty
        { content := JVal.null, status := JVal.str ("current"),
          created := JVal.str ("2020-01-01"), creator := JVal.str ("alice"),
          current := JVal.bool true, id := JVal.str ("12345"),
          modified := JVal.str ("2020-02-02"), modifier := JVal.str ("bob"),
          space := "DS", title := JVal.str ("Welcome"),
          url := JVal.str ("http://wiki/x"), version := JVal.str ("3") }) :=
  ⟨rfl, fun h => Except.noConfusion h⟩

/-- Claim C3, amended: only LEAF absence is tolerated — when every
intermediate object is present, each absent leaf (`body.storage.value`,
`history.createdBy.username`, `version.by.username`) yields None in the
record without raising; but absence of an intermediate object such as
`body` itself raises AttributeError. -/
theorem c3_optional_leaves :
    (∀ (c m v : Option JVal),
      (get_page (fun _ => pageResponse (pageEntryLeaves v c m)) ("http://wiki")
          ("DS") ("Welcome") false).2
        = Except.ok (GetPageResult.pretty
            { content := optToNull v, status := JVal.str ("current"),
              created := JVal.str ("2020-01-01"), creator := optToNull c,
              current := JVal.bool true, id := JVal.str ("12345"),
              modified := JVal.str ("2020-02-02"), modifier := optToNull m,
              space := "DS", title := JVal.str ("Welcome"),
              url := JVal.str ("http://wiki/x"),
              version := JVal.str ("3") })) ∧
    (get_page (fun _ => pageResponse pageEntryNoBody) ("http://wiki") ("DS")
        ("Welcome") false).2 = Except.error PyErr.attributeError := by
  constructor
  · intro c m v
    cases c <;> cases m <;> cases v <;> rfl
  · rfl

/-- Claim C4 (code bug): on the well-formed successful response whose
`results` list is empty — no page matches the space/title pair —
`get_page` raises IndexError at `response['results'][0]` instead of
returning the not-found value None; it never consulted check_response
despite logging as if it had. -/
theorem c4_empty_results_raises :
    (get_page (fun _ => emptyResultsResponse) ("http://wiki") ("DS")
        ("Missing") false).2 = Except.error PyErr.indexError ∧
    (Except.error PyErr.indexError : Except PyErr GetPageResult) ≠
      Except.ok GetPageResult.nonePage :=
  ⟨rfl, fun h => Except.noConfusion h⟩

/-- Claim C5: every raw response whose success flag is false is
classified as failed by check_response — it returns False (and in
particular never True, and raises nothing). -/
theorem c5_not_ok_is_failed :
    ∀ (r : HttpResponse), r.ok = false →
      check_response (some r) = Except.ok false := by
  intro r h
  simp [check_response, h]

/-- Witness for c5_not_ok_is_failed at a concrete HTTP 500 response. -/
theorem c5_not_ok_is_failed_witness :
    check_response (some failedResponse) = Except.ok false :=
  c5_not_ok_is_failed failedResponse rfl

/-- Claim C6, counterexample: check_response returns the very same value
(False) for a successful response with empty `results` as for a failed
response — the empty-result outcome is NOT distinguished from failure in
its return value. -/
theorem c6_empty_not_distinguished_counterexample :
    check_response (some emptyListResponse) = Except.ok false ∧
    check_response (some failedResponse) = Except.ok false ∧
    check_response (some emptyListResponse) = check_response (some failedResponse) :=
  ⟨rfl, rfl, rfl⟩

/-- Claim C6, amended: a successful list-shaped response with empty
`results` makes check_response return False — the same value a failed
response yields, so callers cannot tell "entity does not exist" from
"call failed" by the returned value (only the debug log differs). -/
theorem c6_empty_results_false :
    ∀ (r f : HttpResponse), r.ok = true →
      JVal.getItem r.json ("results") = Except.ok (JVal.list []) →
      f.ok = false →
      check_response (some r) = Except.ok false ∧
      check_response (some r) = check_response (some f) := by
  intro r f hok hres hf
  have h1 : check_response (some r) = Except.ok false := by
    simp [check_response, hok, hres, JVal.index, listNth]
  have h2 : check_response (some f) = Except.ok false := by
    simp [check_response, hf]
  exact ⟨h1, h1.trans h2.symm⟩

/-- Witness for c6_empty_results_false at concrete empty-list and failed
responses. -/
theorem c6_empty_results_false_witness :
    check_response (some emptyListResponse) = Except.ok false ∧
    check_response (some emptyListResponse) = check_response (some failedResponse) :=
  c6_empty_results_false emptyListResponse failedResponse rfl rfl rfl

/-- Claim C7, counterexample: a successful payload with no top-level
`results` key but a single-entity content shape makes check_response
raise KeyError (uncaught) — it is not classified Ok. -/
theorem c7_single_entity_counterexample :
    check_response (some singleShapeResponse) = Except.error PyErr.keyError ∧
    check_response (some singleShapeResponse) ≠ Except.ok true :=
  ⟨rfl, fun h => Except.noConfusion h⟩

/-- Claim C7, amended: a successful payload whose top level has no
`results` key causes check_response to propagate KeyError — the
single-entity shape is not recognised, and such payloads are classified
neither Ok nor EmptyResult. -/
theorem c7_missing_results_keyerror :
    ∀ (r : HttpResponse), r.ok = true →
      JVal.getItem r.json ("results") = Except.error PyErr.keyError →
      check_response (some r) = Except.error PyErr.keyError := by
  intro r hok hres
  simp [check_response, hok, hres]

/-- Witness for c7_missing_results_keyerror at the concrete
single-entity response. -/
theorem c7_missing_results_keyerror_witness :
    check_response (some singleShapeResponse) = Except.error PyErr.keyError :=
  c7_missing_results_keyerror singleShapeResponse rfl rfl

/-- Claim C8 (code bug): a child fetch returning two children (ids 1 and
2, titles Alpha and Bravo) makes `get_child_pages` return ONE mapping
holding only the last child's title and id — the loop mutates a single
shared dict and the function returns that dict, not a sequence of
per-child records. -/
theorem c8_child_pages_last_only :
    (get_child_pages (fun _ => childResponse) ("http://wiki") ("99")).2 =
      Except.ok (JVal.obj [("title", JVal.str ("Bravo")), ("id", JVal.str ("2"))]) :=
  rfl

/-- Claim C9: when check_response rejects the response, `get_page_id`
returns the not-found value None; when it accepts and the first entry's
id coerces to an integer, `get_page_id` returns exactly that integer. -/
theorem c9_get_page_id_spec :
    ∀ (conn : String → HttpResponse) (base space page : String)
      (ct : Option String),
      (check_response (some (conn (get_page_id_request base space page ct))) =
          Except.ok false →
        (get_page_id conn base space page ct).2 =
          Except.ok GetPageIdResult.noneId) ∧
      (∀ (results first idv : JVal) (n : Int),
        check_response (some (conn (get_page_id_request base space page ct))) =
            Except.ok true →
        JVal.getItem (conn (get_page_id_request base space page ct)).json
            ("results") = Except.ok results →
        JVal.index results 0 = Except.ok first →
        JVal.getItem first ("id") = Except.ok idv →
        pyInt idv = Except.ok n →
        (get_page_id conn base space page ct).2 =
          Except.ok (GetPageIdResult.intId n)) := by
  intro conn base space page ct
  constructor
  · intro hchk
    simp [get_page_id, hchk]
  · intro results first idv n hchk hres hfirst hid hn
    simp [get_page_id, hchk, hres, hfirst, hid, hn]

/-- Witness for c9_get_page_id_spec: a failed lookup yields None, and a
successful one-entry lookup with id "12345" yields the integer 12345. -/
theorem c9_get_page_id_spec_witness :
    (get_page_id (fun _ => failedResponse) ("http://wiki") ("DS")
        ("Welcome") none).2 = Except.ok GetPageIdResult.noneId ∧
    (get_page_id (fun _ => pageResponse (pageEntry (JVal.int 3)))
        ("http://wiki") ("DS") ("Welcome") none).2 =
      Except.ok (GetPageIdResult.intId 12345) :=
  ⟨(c9_get_page_id_spec (fun _ => failedResponse) ("http://wiki") ("DS")
      ("Welcome") none).1 rfl,
   (c9_get_page_id_spec (fun _ => pageResponse (pageEntry (JVal.int 3)))
      ("http://wiki") ("DS") ("Welcome") none).2
      (JVal.list [pageEntry (JVal.int 3)]) (pageEntry (JVal.int 3))
      (JVal.str ("12345")) 12345 rfl rfl rfl rfl rfl⟩

/-- Claim C10: the deprecated `getPage(page, space)` wrapper returns
exactly the value of `get_page(space, page)` with the arguments swapped,
and its only added effect is the deprecation warning. -/
theorem c10_getPage_delegates :
    ∀ (conn : String → HttpResponse) (base page space : String),
      (getPage conn base page space).value = get_page conn base space page false ∧
      (getPage conn base page space).warnings =
        [deprecationMessage ("getPage")] :=
  fun _ _ _ _ => ⟨rfl, rfl⟩

end Confluence
